import Mathlib

/-!
Verification development for the droidbot exploration engine
(src/droidbot/input_policy.py).  The Python source is shallowly embedded:
each policy method becomes a pure Lean function over an explicit policy
state and an environment record that models the external device / UTG
collaborators (whose sources are not part of this repository).
-/

/-- Maximum number of consecutive restarts (input_policy.py line 23). -/
def MAX_NUM_RESTARTS : Nat := 5

/-- Threshold of steps outside the app before reacting (input_policy.py line 25). -/
def MAX_NUM_STEPS_OUTSIDE : Nat := 1000

/-- Threshold of steps outside the app before force-stopping (input_policy.py line 26). -/
def MAX_NUM_STEPS_OUTSIDE_KILL : Nat := 1000

/-- Maximum number of replay tries (input_policy.py line 28). -/
def MAX_REPLY_TRIES : Nat := 5

/-- Maximum number of scroll iterations per direction (input_policy.py line 50). -/
def MAX_SCROLL_NUM : Nat := 7

/-- Event flags appended to the event-trace strings of the policies
(input_policy.py lines 31-36).  Every flag string begins with a plus sign
and no flag string extends another across a token boundary, so the
concatenated Python string is faithfully modelled as a list of tokens:
an occurrence of a flag as a substring always aligns with a token, and
str.endswith on flag concatenations is suffix-of on the token list. -/
inductive EventFlag
  | started
  | start_app
  | stop_app
  | explore
  | navigate
  | touch
deriving DecidableEq

/-- Python str.endswith on an event-trace string, at the token level. -/
def traceEndsWith (trace sfx : List EventFlag) : Bool :=
  decide (trace.reverse.take sfx.length = sfx.reverse)

/-- Python str.count of one flag inside an event-trace string, at the token level. -/
def traceCount (trace : List EventFlag) (f : EventFlag) : Nat :=
  trace.count f

/-!
Policy loop (InputPolicy.start, input_policy.py lines 75-109).
Each loop iteration asks the policy for an event; the possible outcomes of
the body are modelled by `StepOutcome` (a concrete event, the FINISHED
signal, or one of the exception classes distinguished by the handlers).
`enabled` models input_manager.enabled, which an external cancellation may
clear between iterations; the loop reads it at iteration entry.
-/

/-- Outcome of one loop-body attempt in InputPolicy.start. -/
inductive StepOutcome
  | genEvent
  | genFinished
  | raiseKeyboardInterrupt
  | raiseInputInterrupted
  | raiseOther
deriving DecidableEq

/-- Why (or whether) the loop of InputPolicy.start came to a halt.
`outOfScript` is a model artifact meaning the finite observation window of
body outcomes was consumed while the loop was still running. -/
inductive StopReason
  | finished
  | budgetExhausted
  | disabled
  | keyboardInterrupt
  | inputInterrupted
  | outOfScript
deriving DecidableEq

/-- The while loop of InputPolicy.start (lines 81-109): checks
input_manager.enabled and the action budget, runs the body, breaks on
FINISHED / KeyboardInterrupt / InputInterruptedException, continues without
incrementing action_count on any other exception, and increments
action_count after a successfully sent event. -/
def runLoop (event_count : Nat) (enabled : Nat → Bool) :
    Nat → Nat → List StepOutcome → Nat × StopReason
  | iter, action_count, script =>
    if !(enabled iter) then (action_count, .disabled)
    else if action_count ≥ event_count then (action_count, .budgetExhausted)
    else
      match script with
      | [] => (action_count, .outOfScript)
      | .genFinished :: _ => (action_count, .finished)
      | .raiseKeyboardInterrupt :: _ => (action_count, .keyboardInterrupt)
      | .raiseInputInterrupted :: _ => (action_count, .inputInterrupted)
      | .genEvent :: rest => runLoop event_count enabled (iter + 1) (action_count + 1) rest
      | .raiseOther :: rest => runLoop event_count enabled (iter + 1) action_count rest

/-!
Greedy graph-search policy (UtgGreedySearchPolicy, input_policy.py
lines 373-559).  The device and UTG are external collaborators; the
environment record carries exactly the queries the method makes about the
current state.  random.shuffle results are modelled by taking the
post-shuffle orders as inputs.
-/

/-- Search strategy of the greedy policy (POLICY_GREEDY_DFS / POLICY_GREEDY_BFS). -/
inductive SearchMethod
  | dfs_greedy
  | bfs_greedy
deriving DecidableEq

/-- Mutable bookkeeping of UtgGreedySearchPolicy (constructor, lines 378-392). -/
structure GreedyPolicy (St : Type) where
  search_method : SearchMethod
  nav_target : Option St
  nav_num_steps : Int
  num_restarts : Nat
  num_steps_outside : Nat
  event_trace : List EventFlag
  missed_states : List String
  random_explore : Bool

/-- Environment of one generate_event_based_on_utg call: the answers the
device and the UTG give about the current state. -/
structure GreedyEnv (Ev St : Type) where
  app_activity_depth : Int
  state_str : String
  possible_events : List Ev
  back_event : Ev
  is_event_explored : Ev → Bool
  reachable_states : List St
  st_depth : St → Int
  st_str : St → String
  is_state_explored : St → Bool
  navigation_steps : St → List (St × Ev)
  reshuffle : List Ev → List Ev

/-- Value returned by one greedy generate_event_based_on_utg call, tagged by
the code path that produced it. -/
inductive GreedyOut (Ev : Type)
  | intent_start
  | intent_stop
  | key_back
  | explore_event (e : Ev)
  | navigate_event (e : Ev)
  | random_event (e : Ev)
  | index_error
deriving DecidableEq

/-- Python set.add on the missed-states set (kept as a duplicate-free list). -/
def setInsert (l : List String) (s : String) : List String :=
  if s ∈ l then l else l ++ [s]

/-- Python set.add on the explored-views set of the naive policy
(kept as a duplicate-free list of (activity, view_str) pairs). -/
def setInsertPair (l : List (String × String)) (s : String × String) :
    List (String × String) :=
  if s ∈ l then l else l ++ [s]

/-- The for-loop over reachable states in UtgGreedySearchPolicy.__get_nav_target
(lines 541-559): skip non-foreground, missed, and fully explored states;
otherwise set the navigation target and accept it if a navigation path exists. -/
def searchNewTarget {Ev St : Type} (p : GreedyPolicy St) (env : GreedyEnv Ev St) :
    List St → GreedyPolicy St × Option St
  | [] => ({ p with nav_target := none, nav_num_steps := -1 }, none)
  | s :: rest =>
    if env.st_depth s ≠ 0 then searchNewTarget p env rest
    else if env.st_str s ∈ p.missed_states then searchNewTarget p env rest
    else if env.is_state_explored s then searchNewTarget p env rest
    else
      let p1 : GreedyPolicy St := { p with nav_target := some s }
      if (env.navigation_steps s).length > 0 then
        ({ p1 with nav_num_steps := ((env.navigation_steps s).length : Int) }, some s)
      else searchNewTarget p1 env rest

/-- UtgGreedySearchPolicy.__get_nav_target (lines 525-559): keep the current
navigation target when the last event was a navigation and the remaining path
has not grown; otherwise mark it missed and search a new target. -/
def getNavTarget {Ev St : Type} (p : GreedyPolicy St) (env : GreedyEnv Ev St) :
    GreedyPolicy St × Option St :=
  match p.nav_target with
  | some t =>
    if traceEndsWith p.event_trace [.navigate] then
      let steps := env.navigation_steps t
      if 0 < steps.length ∧ (steps.length : Int) ≤ p.nav_num_steps then
        ({ p with nav_num_steps := (steps.length : Int) }, some t)
      else
        searchNewTarget
          { p with missed_states := setInsert p.missed_states (env.st_str t) }
          env env.reachable_states
    else searchNewTarget p env env.reachable_states
  | none => searchNewTarget p env env.reachable_states

/-- Candidate list of one greedy call: possible events with the BACK key
appended last under DFS or inserted first under BFS (lines 460-463). -/
def greedyCandidates {Ev St : Type} (p : GreedyPolicy St) (env : GreedyEnv Ev St) :
    List Ev :=
  match p.search_method with
  | .dfs_greedy => env.possible_events ++ [env.back_event]
  | .bfs_greedy => env.back_event :: env.possible_events

/-- Tail of the greedy event selection (lines 485-494): random fallback when
random-explore mode is active, otherwise stop the app. -/
def randomOrStop {Ev St : Type} (p : GreedyPolicy St) (env : GreedyEnv Ev St)
    (candidates : List Ev) : GreedyPolicy St × GreedyOut Ev :=
  if p.random_explore then
    match env.reshuffle candidates with
    | e :: _ => (p, .random_event e)
    | [] => (p, .index_error)
  else
    ({ p with event_trace := p.event_trace ++ [.stop_app] }, .intent_stop)

/-- Event selection of one greedy call (lines 454-494): first unexplored
candidate event, then a navigation step toward a target, then the
random/stop tail. -/
def greedySelection {Ev St : Type} (p : GreedyPolicy St) (env : GreedyEnv Ev St) :
    GreedyPolicy St × GreedyOut Ev :=
  let candidates := greedyCandidates p env
  match candidates.find? (fun e => !(env.is_event_explored e)) with
  | some e => ({ p with event_trace := p.event_trace ++ [.explore] }, .explore_event e)
  | none =>
    match getNavTarget p env with
    | (p1, some t) =>
      match env.navigation_steps t with
      | (_, e) :: _ =>
        ({ p1 with event_trace := p1.event_trace ++ [.navigate] }, .navigate_event e)
      | [] => randomOrStop p1 env candidates
    | (p1, none) => randomOrStop p1 env candidates

/-- UtgGreedySearchPolicy.generate_event_based_on_utg (lines 394-494):
classify the current state by app activity depth (restart handling for
depth < 0, outside-the-app handling for depth > 0), then select an event. -/
def generateGreedy {Ev St : Type} (p : GreedyPolicy St) (env : GreedyEnv Ev St) :
    GreedyPolicy St × GreedyOut Ev :=
  let p := { p with missed_states := p.missed_states.erase env.state_str }
  if env.app_activity_depth < 0 then
    let p :=
      if traceEndsWith p.event_trace [.start_app, .stop_app]
          || traceEndsWith p.event_trace [.start_app] then
        { p with num_restarts := p.num_restarts + 1 }
      else { p with num_restarts := 0 }
    if !(traceEndsWith p.event_trace [.start_app]) then
      if p.num_restarts > MAX_NUM_RESTARTS then
        greedySelection { p with random_explore := true } env
      else
        ({ p with event_trace := p.event_trace ++ [.start_app] }, .intent_start)
    else greedySelection p env
  else if env.app_activity_depth > 0 then
    let p := { p with num_steps_outside := p.num_steps_outside + 1 }
    if p.num_steps_outside > MAX_NUM_STEPS_OUTSIDE then
      if p.num_steps_outside > MAX_NUM_STEPS_OUTSIDE_KILL then
        ({ p with event_trace := p.event_trace ++ [.navigate] }, .intent_stop)
      else
        ({ p with event_trace := p.event_trace ++ [.navigate] }, .key_back)
    else greedySelection p env
  else greedySelection { p with num_steps_outside := 0 } env

/-!
Naive graph-search policy (UtgNaiveSearchPolicy, input_policy.py
lines 219-370).  random_input shuffling is modelled with the identity
order (the claims below do not depend on the shuffle); DeviceState.is_different_from
is a device-collaborator query carried by the environment.
-/

/-- Search strategy of the naive policy (POLICY_NAIVE_DFS / POLICY_NAIVE_BFS). -/
inductive NaiveSearchMethod
  | dfs_naive
  | bfs_naive
deriving DecidableEq

/-- The view fields the naive policy reads (text, identity string, enabled
flag, child count). -/
structure NView where
  view_str : String
  text : Option String
  enabled : Bool
  children : Nat
deriving DecidableEq

/-- The state fields the naive policy reads. -/
structure NState where
  foreground_activity : String
  views : List NView
  tag : String
deriving DecidableEq

/-- Mutable bookkeeping of UtgNaiveSearchPolicy (constructor, lines 224-237). -/
structure NaivePolicy where
  search_method : NaiveSearchMethod
  explored_views : List (String × String)
  state_transitions : List (String × String × String)
  last_event_flag : List EventFlag
  last_event_str : Option String

/-- Environment of one naive generate_event_based_on_utg call. -/
structure NaiveEnv where
  foreground : Bool
  current_state : NState
  last_state : Option NState
  is_different : Bool

/-- Value returned by one naive generate_event_based_on_utg call. -/
inductive NaiveOut
  | intent_start
  | intent_stop
  | key_back
  | touch_view (view_str : String)
deriving DecidableEq

/-- The only run-terminating failure of the naive policy:
InputInterruptedException("The app cannot be started.") at line 255. -/
inductive NaiveErr
  | appCannotStart
deriving DecidableEq

/-- Preferred button texts of the graph-search policies (lines 236-237). -/
def preferred_buttons : List String :=
  ["yes", "ok", "activate", "detail", "more", "access",
   "allow", "check", "agree", "try", "go", "next"]

/-- UtgNaiveSearchPolicy.save_state_transition (lines 347-358). -/
def saveStateTransition (p : NaivePolicy) (env : NaiveEnv) : NaivePolicy :=
  match p.last_event_str, env.last_state with
  | some ev, some old =>
    if env.is_different then
      { p with state_transitions :=
          p.state_transitions ++ [(ev, old.tag, env.current_state.tag)] }
    else p
  | _, _ => p

/-- UtgNaiveSearchPolicy.select_a_view (lines 292-345), with random_input
false (no shuffles).  The mock BACK view of lines 307-308 carries only
view_str and text in the source; the remaining fields are never read after
the enabled/children filter, which runs before the mock is added. -/
def selectAView (p : NaivePolicy) (state : NState) : Option NView :=
  let views := state.views.filter (fun v => v.enabled && v.children == 0)
  let mock_view_back : NView :=
    { view_str := "BACK_" ++ state.foreground_activity,
      text := some ("BACK_" ++ state.foreground_activity),
      enabled := true, children := 0 }
  let views :=
    match p.search_method with
    | .dfs_naive => views ++ [mock_view_back]
    | .bfs_naive => mock_view_back :: views
  let preferred := views.find? (fun v =>
    decide ((v.text.getD "").toLower.trim ∈ preferred_buttons)
      && !(decide ((state.foreground_activity, v.view_str) ∈ p.explored_views)))
  match preferred with
  | some v => some v
  | none =>
    match views.find? (fun v =>
        !(decide ((state.foreground_activity, v.view_str) ∈ p.explored_views))) with
    | some v => some v
    | none =>
      views.find? (fun v =>
        (p.state_transitions.map (fun t => t.1)).contains v.view_str)

/-- UtgNaiveSearchPolicy.generate_event_based_on_utg (lines 239-290).
When the app is not in the foreground and the number of recorded start
attempts exceeds MAX_NUM_RESTARTS, the method raises
InputInterruptedException, which terminates the run. -/
def generateNaive (p : NaivePolicy) (env : NaiveEnv) :
    Except NaiveErr (NaivePolicy × NaiveOut) :=
  let p := saveStateTransition p env
  let startCheck : Except NaiveErr (NaivePolicy × Option NaiveOut) :=
    if env.foreground then
      .ok ({ p with last_event_flag := [.started] }, none)
    else
      let number_of_starts := traceCount p.last_event_flag .start_app
      if number_of_starts > MAX_NUM_RESTARTS then .error .appCannotStart
      else if traceEndsWith p.last_event_flag [.start_app] then .ok (p, none)
      else
        .ok ({ p with last_event_flag := p.last_event_flag ++ [.start_app],
                      last_event_str := some "+start_app" }, some .intent_start)
  match startCheck with
  | .error e => .error e
  | .ok (p, some out) => .ok (p, out)
  | .ok (p, none) =>
    match selectAView p env.current_state with
    | none =>
      .ok ({ p with last_event_flag := p.last_event_flag ++ [.stop_app],
                    last_event_str := some "+stop_app" }, .intent_stop)
    | some v =>
      let out := if v.view_str.startsWith "BACK" then NaiveOut.key_back
                 else NaiveOut.touch_view v.view_str
      let p := { p with last_event_flag := p.last_event_flag ++ [EventFlag.touch],
                        last_event_str := some v.view_str }
      let explored := setInsertPair p.explored_views
        (env.current_state.foreground_activity, v.view_str)
      .ok ({ p with explored_views := explored }, out)

/-!
Task policy depth classification (TaskPolicy.generate_event_based_on_utg,
input_policy.py lines 764-827): the restart / outside-the-app state machine
shared with the greedy policy, plus the action/thought history bookkeeping.
-/

/-- Mutable bookkeeping of TaskPolicy that the depth classification touches
(constructor, lines 678-686). -/
structure TaskBookkeeping where
  num_restarts : Nat
  num_steps_outside : Nat
  event_trace : List EventFlag
  missed_states : List String
  random_explore : Bool
  action_history : List String
  thought_history : List String

/-- Result of the depth classification part of one task-policy call:
either an immediate event or a fall-through to the scrolling / oracle part. -/
inductive TaskDepthOut
  | intent_start
  | intent_stop
  | key_back
  | fall_through
deriving DecidableEq

/-- TaskPolicy.generate_event_based_on_utg, lines 769-827: the missed-state
removal and the three activity-depth branches, up to the point where the
method falls through to screen serialization. -/
def taskClassifyDepth (p : TaskBookkeeping) (depth : Int) (state_str : String)
    (app_name task : String) : TaskBookkeeping × TaskDepthOut :=
  let p := { p with missed_states := p.missed_states.erase state_str }
  if depth < 0 then
    let p :=
      if traceEndsWith p.event_trace [.start_app, .stop_app]
          || traceEndsWith p.event_trace [.start_app] then
        { p with num_restarts := p.num_restarts + 1 }
      else { p with num_restarts := 0 }
    if !(traceEndsWith p.event_trace [.start_app]) then
      if p.num_restarts > MAX_NUM_RESTARTS then
        ({ p with random_explore := true }, .fall_through)
      else
        ({ p with event_trace := p.event_trace ++ [.start_app],
                  action_history := ["- launchApp " ++ app_name],
                  thought_history :=
                    ["launch the app " ++ app_name ++ " to finish the task " ++ task] },
         .intent_start)
    else (p, .fall_through)
  else if depth > 0 then
    let p := { p with num_steps_outside := p.num_steps_outside + 1 }
    if p.num_steps_outside > MAX_NUM_STEPS_OUTSIDE then
      let p := { p with event_trace := p.event_trace ++ [.navigate],
                        action_history := p.action_history ++ ["- go back"],
                        thought_history := p.thought_history ++
                          ["the app has not been in foreground for too long, try to go back"] }
      if p.num_steps_outside > MAX_NUM_STEPS_OUTSIDE_KILL then (p, .intent_stop)
      else (p, .key_back)
    else (p, .fall_through)
  else ({ p with num_steps_outside := 0 }, .fall_through)

/-!
Oracle response handling (TaskPolicy._get_action_from_views_actions,
input_policy.py lines 1233-1243).  Python list indexing semantics are
modelled exactly: a negative index selects from the end of the list, and
an index outside [-len, len) raises IndexError.
-/

/-- Python list subscription l[i]: non-negative indices from the front,
negative indices from the end, IndexError (none) otherwise. -/
def pyListGet {A : Type} (l : List A) (i : Int) : Option A :=
  if 0 ≤ i then l.get? i.toNat
  else if 0 ≤ (l.length : Int) + i then l.get? ((l.length : Int) + i).toNat
  else none

/-- Value produced by the oracle-response processing. -/
inductive OracleOut (A : Type)
  | finished
  | action (a : A)
deriving DecidableEq

/-- Python exception of a failed list subscription. -/
inductive PyErr
  | indexError
deriving DecidableEq

/-- TaskPolicy._get_action_from_views_actions, lines 1234-1243: the parsed
index is returned as FINISHED when it is -1, clamped to 0 (with a warning)
when it is at least the candidate count, and then used to subscript the
candidate-action list. -/
def selectActionFromResponse {A : Type} (idx : Int) (candidate_actions : List A) :
    Except PyErr (OracleOut A) :=
  if idx = -1 then .ok .finished
  else
    let idx1 := if idx ≥ (candidate_actions.length : Int) then 0 else idx
    match pyListGet candidate_actions idx1 with
    | some a => .ok (.action a)
    | none => .error .indexError

/-!
Credential extraction (TaskPolicy._extract_credentials_from_notes,
input_policy.py lines 1377-1496).  The credential regular expressions are
compiled into a small regex representation and matched with Python
re.search semantics: leftmost starting position wins, greedy repetition
tries longest first, lazy repetition shortest first, and IGNORECASE makes
literals case-insensitive.  Every repetition operator in these patterns
applies to a single-character class, so a compiled pattern is a flat atom
sequence (the one non-capturing optional fragment (?:the\s+)? gets its own
atom form).  Each pattern has exactly one capture group.
-/

/-- Python \s over the ASCII range: space, tab, newline, carriage return,
form feed, vertical tab. -/
def isSpaceC (c : Char) : Bool :=
  c = ' ' || c = '\t' || c = '\n' || c = '\r' || c = Char.ofNat 12 || c = Char.ofNat 11

/-- Python \d over the ASCII range. -/
def isDigitC (c : Char) : Bool := c.isDigit

/-- Character class [:\s=] used by the key-value credential patterns. -/
def sepCls (c : Char) : Bool := c = ':' || isSpaceC c || c = '='

/-- Character class [^\d]. -/
def notDigitC (c : Char) : Bool := !c.isDigit

/-- Python . without DOTALL: any character except a newline. -/
def dotC (c : Char) : Bool := c != '\n'

/-- Character class [^\s.,]. -/
def notSpDotComma (c : Char) : Bool := !(isSpaceC c || c = '.' || c = ',')

/-- Character class [^\s.,@]. -/
def notSpDotCommaAt (c : Char) : Bool := !(isSpaceC c || c = '.' || c = ',' || c = '@')

/-- Python \w over the ASCII range, for the \b word boundary. -/
def isWordC (c : Char) : Bool := c.isAlphanum || c = '_'

/-- One element of a compiled credential regular expression. -/
inductive RAtom
  | lit (s : List Char)
  | plusCls (p : Char → Bool)
  | starCls (p : Char → Bool)
  | lazyStarCls (p : Char → Bool)
  | repCls (p : Char → Bool) (n : Nat)
  | optLitWs (s : List Char)
  | gopen
  | gclose
  | wordBoundary

/-- Consume a literal case-insensitively from the front of a suffix,
returning the remaining suffix. -/
def litStrip : List Char → List Char → Option (List Char)
  | [], s => some s
  | _ :: _, [] => none
  | c :: cs, d :: ds => if c.toLower = d.toLower then litStrip cs ds else none

/-- Last character consumed when k characters are stripped from suffix s;
keeps the previous character when nothing is consumed. -/
def newPrev (s : List Char) (k : Nat) (prev : Option Char) : Option Char :=
  if k = 0 then prev else (s.take k).getLast?

/-- Candidate repetition counts for a greedy repetition over a class with
maximal run m: m, m-1, ..., low. -/
def greedyCounts (m low : Nat) : List Nat :=
  (List.range (m + 1 - low)).map (fun j => m - j)

/-- Backtracking matcher for one compiled pattern anchored at the current
suffix: s is the remaining input, prev the character just before it, go the
suffix at which the capture group opened, cap the capture once closed.
Returns the captured text of the first (per Python re backtracking order)
successful match. -/
def reMatch (prev : Option Char) (go : Option (List Char)) (cap : Option (List Char))
    (s : List Char) : List RAtom → Option (List Char)
  | [] => some (cap.getD [])
  | .lit l :: rest =>
    match litStrip l s with
    | some s1 => reMatch (newPrev s l.length prev) go cap s1 rest
    | none => none
  | .plusCls p :: rest =>
    let m := (s.takeWhile p).length
    (greedyCounts m 1).findSome? (fun k =>
      reMatch (newPrev s k prev) go cap (s.drop k) rest)
  | .starCls p :: rest =>
    let m := (s.takeWhile p).length
    (greedyCounts m 0).findSome? (fun k =>
      reMatch (newPrev s k prev) go cap (s.drop k) rest)
  | .lazyStarCls p :: rest =>
    let m := (s.takeWhile p).length
    (List.range (m + 1)).findSome? (fun k =>
      reMatch (newPrev s k prev) go cap (s.drop k) rest)
  | .repCls p n :: rest =>
    if n ≤ s.length && (s.take n).all p then
      reMatch (newPrev s n prev) go cap (s.drop n) rest
    else none
  | .optLitWs l :: rest =>
    (match litStrip l s with
     | some s1 =>
       let m := (s1.takeWhile isSpaceC).length
       (greedyCounts m 1).findSome? (fun k =>
         reMatch (newPrev s1 k (newPrev s l.length prev)) go cap (s1.drop k) rest)
     | none => none).orElse
      (fun _ => reMatch prev go cap s rest)
  | .gopen :: rest => reMatch prev (some s) cap s rest
  | .gclose :: rest =>
    match go with
    | some gs => reMatch prev go (some (gs.take (gs.length - s.length))) s rest
    | none => none
  | .wordBoundary :: rest =>
    let before := match prev with | some c => isWordC c | none => false
    let after := match s with | c :: _ => isWordC c | [] => false
    if before ≠ after then reMatch prev go cap s rest else none

/-- Python re.search: try every starting position left to right and return
the capture of the first match. -/
def reSearch (pat : List RAtom) (text : String) : Option String :=
  let cs := text.toList
  ((List.range (cs.length + 1)).findSome? (fun i =>
    reMatch ((cs.take i).getLast?) none none (cs.drop i) pat)).map
    (fun cap => String.mk cap)

/-- Compiled pin patterns (input_policy.py lines 1395-1405), in source order:
pin[:\s=]+(\d+); use\s+(?:the\s+)?pin\s+(\d+); use\s+(\d{4});
pin.*?(\d{4}); (\d{4}).*?pin; enter\s+.*?(\d{4}); code[:\s=]+(\d+);
digit[^\d]*(\d{4}); passcode[:\s=]+(\d+). -/
def pinPatterns : List (List RAtom) :=
  [[.lit "pin".toList, .plusCls sepCls, .gopen, .plusCls isDigitC, .gclose],
   [.lit "use".toList, .plusCls isSpaceC, .optLitWs "the".toList, .lit "pin".toList,
    .plusCls isSpaceC, .gopen, .plusCls isDigitC, .gclose],
   [.lit "use".toList, .plusCls isSpaceC, .gopen, .repCls isDigitC 4, .gclose],
   [.lit "pin".toList, .lazyStarCls dotC, .gopen, .repCls isDigitC 4, .gclose],
   [.gopen, .repCls isDigitC 4, .gclose, .lazyStarCls dotC, .lit "pin".toList],
   [.lit "enter".toList, .plusCls isSpaceC, .lazyStarCls dotC, .gopen, .repCls isDigitC 4, .gclose],
   [.lit "code".toList, .plusCls sepCls, .gopen, .plusCls isDigitC, .gclose],
   [.lit "digit".toList, .starCls notDigitC, .gopen, .repCls isDigitC 4, .gclose],
   [.lit "passcode".toList, .plusCls sepCls, .gopen, .plusCls isDigitC, .gclose]]

/-- Compiled password patterns (lines 1406-1410):
password[:\s=]+([^\s.,]+); use\s+(?:the\s+)?password\s+([^\s.,]+);
pass[:\s=]+([^\s.,]+). -/
def passwordPatterns : List (List RAtom) :=
  [[.lit "password".toList, .plusCls sepCls, .gopen, .plusCls notSpDotComma, .gclose],
   [.lit "use".toList, .plusCls isSpaceC, .optLitWs "the".toList, .lit "password".toList,
    .plusCls isSpaceC, .gopen, .plusCls notSpDotComma, .gclose],
   [.lit "pass".toList, .plusCls sepCls, .gopen, .plusCls notSpDotComma, .gclose]]

/-- Compiled username patterns (lines 1411-1415):
username[:\s=]+([^\s.,]+); use\s+(?:the\s+)?username\s+([^\s.,]+);
user[:\s=]+([^\s.,]+). -/
def usernamePatterns : List (List RAtom) :=
  [[.lit "username".toList, .plusCls sepCls, .gopen, .plusCls notSpDotComma, .gclose],
   [.lit "use".toList, .plusCls isSpaceC, .optLitWs "the".toList, .lit "username".toList,
    .plusCls isSpaceC, .gopen, .plusCls notSpDotComma, .gclose],
   [.lit "user".toList, .plusCls sepCls, .gopen, .plusCls notSpDotComma, .gclose]]

/-- Compiled email patterns (lines 1416-1419):
email[:\s=]+([^\s.,@]+@[^\s.,]+); use\s+(?:the\s+)?email\s+([^\s.,@]+@[^\s.,]+). -/
def emailPatterns : List (List RAtom) :=
  [[.lit "email".toList, .plusCls sepCls, .gopen, .plusCls notSpDotCommaAt,
    .lit "@".toList, .plusCls notSpDotComma, .gclose],
   [.lit "use".toList, .plusCls isSpaceC, .optLitWs "the".toList, .lit "email".toList,
    .plusCls isSpaceC, .gopen, .plusCls notSpDotCommaAt, .lit "@".toList,
    .plusCls notSpDotComma, .gclose]]

/-- Compiled standalone 4-digit fallback pattern \b(\d{4})\b
(lines 1438 and 1479); the source keeps only the first find. -/
def fourDigitPattern : List RAtom :=
  [.wordBoundary, .gopen, .repCls isDigitC 4, .gclose, .wordBoundary]

/-- The per-credential-type pattern loop: first pattern that matches wins
(break after the first successful match for a type). -/
def searchPatterns (pats : List (List RAtom)) (text : String) : Option String :=
  pats.findSome? (fun pat => reSearch pat text)

/-- The credential dictionary: one optional value per credential kind
(dict insertion order pin, password, username, email). -/
structure Credentials where
  pin : Option String
  password : Option String
  username : Option String
  email : Option String
deriving DecidableEq

/-- The empty credential dictionary. -/
def emptyCredentials : Credentials :=
  { pin := none, password := none, username := none, email := none }

/-- Lines 1426-1443: extraction from explicitly provided notes text, with
the any-standalone-4-digit fallback for pin, returning early (so the
default-PIN block below is not reached on this path). -/
def extractFromText (text : String) : Credentials :=
  let c : Credentials :=
    { pin := searchPatterns pinPatterns text,
      password := searchPatterns passwordPatterns text,
      username := searchPatterns usernamePatterns text,
      email := searchPatterns emailPatterns text }
  match c.pin with
  | some _ => c
  | none => { c with pin := reSearch fourDigitPattern text }

/-- One entry of config["app_notes"]; none models an entry without a usable
notes field (missing, non-dict, or the literal "N/A"). -/
structure AppNote where
  notes : Option String

/-- The usable note texts of the configuration, in order. -/
def noteTexts (config : Option (List AppNote)) : List String :=
  (config.getD []).filterMap (fun n => n.notes)

/-- Lines 1446-1465: the per-note credential pattern loop; a value found in
a later note overwrites the value found in an earlier note. -/
def gatherFromNotes (config : Option (List AppNote)) : Credentials :=
  (noteTexts config).foldl
    (fun c note =>
      { pin := (searchPatterns pinPatterns note).orElse (fun _ => c.pin),
        password := (searchPatterns passwordPatterns note).orElse (fun _ => c.password),
        username := (searchPatterns usernamePatterns note).orElse (fun _ => c.username),
        email := (searchPatterns emailPatterns note).orElse (fun _ => c.email) })
    emptyCredentials

/-- Lines 1467-1482: when no pin was found, look for any standalone 4-digit
number in the concatenation of all notes (each prefixed by one space). -/
def configCredentials (config : Option (List AppNote)) : Credentials :=
  let c := gatherFromNotes config
  match c.pin with
  | some _ => c
  | none =>
    let all_notes := (noteTexts config).foldl (fun a n => a ++ " " ++ n) ""
    if all_notes = "" then c
    else { c with pin := reSearch fourDigitPattern all_notes }

/-- Lines 1484-1496: the default PIN "1234" is inserted whenever the
config-based extraction found nothing at all. -/
def configCredentialsDefaulted (config : Option (List AppNote)) : Credentials :=
  let c := configCredentials config
  if c = emptyCredentials then { emptyCredentials with pin := some "1234" } else c

/-- TaskPolicy._extract_credentials_from_notes (lines 1377-1496): when a
non-empty notes text is passed the extraction works on it alone and returns
early; otherwise (None, or empty string, which is falsy in Python) it works
on the configured app notes and applies the default-PIN rule. -/
def extractCredentialsFromNotes (notes_text : Option String)
    (config : Option (List AppNote)) : Credentials :=
  match notes_text with
  | some t => if t = "" then configCredentialsDefaulted config else extractFromText t
  | none => configCredentialsDefaulted config

/-- List prefix test by character equality. -/
def listStartsWith : List Char → List Char → Bool
  | _, [] => true
  | [], _ :: _ => false
  | c :: cs, d :: ds => c = d && listStartsWith cs ds

/-- Substring containment (Python "needle in hay") on character lists. -/
def listContainsSub : List Char → List Char → Bool
  | [], needle => listStartsWith [] needle
  | c :: t, needle => listStartsWith (c :: t) needle || listContainsSub t needle

/-- Substring containment (Python "needle in hay") on strings. -/
def containsSubstr (hay needle : String) : Bool :=
  listContainsSub hay.toList needle.toList

/-- Python str.lower, mapping the character-level lowercase over the
characters of the string. -/
def strLower (s : String) : String := String.mk (s.toList.map Char.toLower)

/-- Line 1279: a PIN-shaped input field is present when the lowercased
serialized screen contains both an input tag and the word pin. -/
def hasPinField (state_prompt : String) : Bool :=
  containsSubstr (strLower state_prompt) "<input" && containsSubstr (strLower state_prompt) "pin"

/-- The credential computation of TaskPolicy._try_direct_auth_action
(lines 1283-1288).  The condition on app_notes being in locals() at
line 1283 is always false in the source (the method has no such local), so
the helper runs on the configured notes; when no pin was found and a
PIN-shaped input field is present, the whole credential dictionary is
replaced by the default PIN dictionary. -/
def tryDirectAuthCredentials (state_prompt : String)
    (config : Option (List AppNote)) : Credentials :=
  let credentials := extractCredentialsFromNotes none config
  if (credentials = emptyCredentials || credentials.pin = none)
      && hasPinField state_prompt then
    { emptyCredentials with pin := some "1234" }
  else credentials

/-!
Scroll-region flattening (TaskPolicy._scroll_to_top, lines 742-761, and the
downward accumulation loop of TaskPolicy.generate_event_based_on_utg,
lines 859-884).  The device is modelled by an observation function: obs k
is the view list the device reports after the k-th scroll in the running
direction.  Both loops are modelled by the number of scroll events they
send, which equals the number of executed loop iterations (the scroll is
sent before any break test).
-/

/-- Views newly observed on one scrolled screen: in source order, every
view of the scrolled state that is not already in the accumulator
(lines 752-756 and 865-871); duplicates inside one report are kept once. -/
def newViews {V : Type} [DecidableEq V] (scrolled acc : List V) : List V :=
  (scrolled.foldl
    (fun (pr : List V × List V) v =>
      if v ∈ pr.2 then pr else (pr.1 ++ [v], pr.2 ++ [v]))
    ([], acc)).1

/-- TaskPolicy._scroll_to_top (lines 746-760): scroll UP until a scroll
reveals no new view, at most `fuel` times; returns the number of UP scroll
events sent. -/
def scrollToTopCount {V : Type} [DecidableEq V] (obs : Nat → List V) :
    Nat → Nat → List V → Nat
  | 0, _, _ => 0
  | fuel + 1, k, marks =>
    let nw := newViews (obs k) marks
    if nw.length = 0 then 1
    else 1 + scrollToTopCount obs fuel (k + 1) (marks ++ nw)

/-- The downward accumulation loop (lines 859-884): scroll DOWN at most
`fuel` times, stopping when a scroll reveals no new view or when the
too-few-items counter (incremented whenever a scroll reveals fewer than two
new views) reaches two; returns the number of DOWN scroll events sent. -/
def scrollDownCount {V : Type} [DecidableEq V] (obs : Nat → List V) :
    Nat → Nat → List V → Nat → Nat
  | 0, _, _, _ => 0
  | fuel + 1, k, acc, too_few_item_time =>
    let nw := newViews (obs k) acc
    if nw.length = 0 then 1
    else
      let tf1 := if nw.length < 2 then too_few_item_time + 1 else too_few_item_time
      if tf1 ≥ 2 then 1
      else 1 + scrollDownCount obs fuel (k + 1) (acc ++ nw) tf1

/-!
Replay policy (UtgReplayPolicy.generate_event, input_policy.py
lines 587-635).  A journal entry is its recorded start-state signature and
event; none models an entry whose JSON fails to load (lines 609-613).  The
cursor starts at index 2 (constructor line 580: skip HOME and the start-app
intent).  obs t is the device state polled at outer-loop iteration t: none
when the device is unavailable, otherwise the live state signature and the
app-in-foreground flag.
-/

/-- Outcome of the inner forward scan over the recorded entries. -/
inductive ScanHit (Ev : Type)
  | needForeground
  | matched (e : Ev) (next_idx : Nat)
deriving DecidableEq

/-- The body of the inner while of UtgReplayPolicy.generate_event
(lines 604-631), walking the remaining entries with their absolute indices:
skip unloadable entries and entries whose recorded start-state signature
differs from the live state; on a match, report the foreground intent when
the app is backgrounded (without advancing the cursor), otherwise the
recorded event and the advanced cursor. -/
def replayScanFrom {Ev : Type} (cur : String) (foreground : Bool) :
    List (Option (String × Ev)) → Nat → Option (ScanHit Ev)
  | [], _ => none
  | none :: rest, i => replayScanFrom cur foreground rest (i + 1)
  | some (ss, e) :: rest, i =>
    if ss ≠ cur then replayScanFrom cur foreground rest (i + 1)
    else if !foreground then some .needForeground
    else some (.matched e (i + 1))

/-- The inner while of UtgReplayPolicy.generate_event, scanning forward
from cursor position i. -/
def replayScan {Ev : Type} (records : List (Option (String × Ev)))
    (cur : String) (foreground : Bool) (i : Nat) : Option (ScanHit Ev) :=
  replayScanFrom cur foreground (records.drop i) i

/-- Per-call cursor state of UtgReplayPolicy (constructor lines 580-581). -/
structure ReplayState where
  event_idx : Nat
  num_replay_tries : Nat
deriving DecidableEq

/-- Value returned by one replay generate_event call; no_event models the
Python None produced by falling off the end of the method, the end-of-replay
interruption being commented out at line 635. -/
inductive ReplayOut (Ev : Type)
  | key_back
  | foreground_intent
  | replay_event (e : Ev)
  | no_event
deriving DecidableEq

/-- The outer retry loop of UtgReplayPolicy.generate_event, with the
remaining try budget MAX_REPLY_TRIES - num_replay_tries carried as an
explicit argument (it is zero exactly when the loop condition on the try
counter fails, so the zero case coincides with falling off the method). -/
def replayLoopFuel {Ev : Type} (records : List (Option (String × Ev)))
    (obs : Nat → Option (String × Bool)) :
    Nat → ReplayState → Nat → ReplayState × ReplayOut Ev
  | 0, st, _ => (st, .no_event)
  | fuel + 1, st, t =>
    if st.event_idx < records.length ∧ st.num_replay_tries < MAX_REPLY_TRIES then
      let st1 : ReplayState := { st with num_replay_tries := st.num_replay_tries + 1 }
      match obs t with
      | none => ({ st1 with num_replay_tries := 0 }, .key_back)
      | some (cur, fg) =>
        match replayScan records cur fg st1.event_idx with
        | some .needForeground => (st1, .foreground_intent)
        | some (.matched e next) =>
          ({ event_idx := next, num_replay_tries := 0 }, .replay_event e)
        | none => replayLoopFuel records obs fuel st1 (t + 1)
    else (st, .no_event)

/-- UtgReplayPolicy.generate_event (lines 587-635): the outer retry loop;
each iteration increments the try counter, polls the device (returning BACK
with a reset counter when it is unavailable), scans the records, and
retries after a wait when no record matched; when the cursor or the try
budget is exhausted the method returns None (the end-of-replay interruption
of the original code is commented out at line 635). -/
def replayGenerateEvent {Ev : Type} (records : List (Option (String × Ev)))
    (obs : Nat → Option (String × Bool)) (st : ReplayState) (t : Nat) :
    ReplayState × ReplayOut Ev :=
  replayLoopFuel records obs (MAX_REPLY_TRIES - st.num_replay_tries) st t

/-- The recorded event of the first loadable entry at or after index i whose
recorded start-state signature equals the live state: the specification-side
description of what the inner replay scan finds. -/
def firstMatchingEvent {Ev : Type} (records : List (Option (String × Ev)))
    (cur : String) (i : Nat) : Option Ev :=
  (records.drop i).findSome? (fun r =>
    match r with
    | some (ss, e) => if ss = cur then some e else none
    | none => none)

/-- The event (if any) a scan hit replays. -/
def scanHitEvent {Ev : Type} : ScanHit Ev → Option Ev
  | .needForeground => none
  | .matched e _ => some e

/-!
Concrete inputs used by the witness and counterexample theorems below.
-/

/-- An always-enabled input manager. -/
def enabledTrue : Nat → Bool := fun _ => true

/-- An input manager disabled from the start (external cancellation). -/
def enabledFalse : Nat → Bool := fun _ => false

/-- Environment of a backgrounded-app call (activity depth 1). -/
def envOutside : GreedyEnv Nat Nat :=
  { app_activity_depth := 1, state_str := "s0", possible_events := [1],
    back_event := 0, is_event_explored := fun _ => true,
    reachable_states := [], st_depth := fun _ => 0, st_str := fun _ => "x",
    is_state_explored := fun _ => false, navigation_steps := fun _ => [],
    reshuffle := fun l => l }

/-- Greedy bookkeeping whose outside-the-app counter is about to pass the
threshold. -/
def policyOutside : GreedyPolicy Nat :=
  { search_method := .dfs_greedy, nav_target := none, nav_num_steps := -1,
    num_restarts := 0, num_steps_outside := MAX_NUM_STEPS_OUTSIDE,
    event_trace := [], missed_states := [], random_explore := false }

/-- Task bookkeeping whose outside-the-app counter is about to pass the
threshold. -/
def taskOutside : TaskBookkeeping :=
  { num_restarts := 0, num_steps_outside := MAX_NUM_STEPS_OUTSIDE,
    event_trace := [], missed_states := [], random_explore := false,
    action_history := [], thought_history := [] }

/-- Naive bookkeeping that has recorded six start attempts. -/
def policyNaiveStarts : NaivePolicy :=
  { search_method := .dfs_naive, explored_views := [], state_transitions := [],
    last_event_flag :=
      [.start_app, .stop_app, .start_app, .stop_app, .start_app, .stop_app,
       .start_app, .stop_app, .start_app, .stop_app, .start_app, .stop_app],
    last_event_str := none }

/-- Environment of a naive call with the app not in the foreground. -/
def envNaiveDown : NaiveEnv :=
  { foreground := false,
    current_state := { foreground_activity := "A", views := [], tag := "t0" },
    last_state := none, is_different := false }

/-- Environment of a not-running-app call (activity depth -1). -/
def envRestart : GreedyEnv Nat Nat :=
  { app_activity_depth := -1, state_str := "s0", possible_events := [1],
    back_event := 0, is_event_explored := fun _ => false,
    reachable_states := [], st_depth := fun _ => 0, st_str := fun _ => "x",
    is_state_explored := fun _ => false, navigation_steps := fun _ => [],
    reshuffle := fun l => l }

/-- Greedy bookkeeping at the last tolerated restart, after a
start-then-stop trace. -/
def policyRestart : GreedyPolicy Nat :=
  { search_method := .dfs_greedy, nav_target := none, nav_num_steps := -1,
    num_restarts := MAX_NUM_RESTARTS, num_steps_outside := 0,
    event_trace := [.start_app, .stop_app], missed_states := [],
    random_explore := false }

/-- Greedy bookkeeping already in random-exploration mode. -/
def policyRandomMode : GreedyPolicy Nat :=
  { search_method := .dfs_greedy, nav_target := none, nav_num_steps := -1,
    num_restarts := 0, num_steps_outside := 0,
    event_trace := [], missed_states := [], random_explore := true }

/-- Environment of a foreground call offering one unexplored event. -/
def envExplore : GreedyEnv Nat Nat :=
  { app_activity_depth := 0, state_str := "s0", possible_events := [5],
    back_event := 9, is_event_explored := fun _ => false,
    reachable_states := [], st_depth := fun _ => 0, st_str := fun _ => "x",
    is_state_explored := fun _ => false, navigation_steps := fun _ => [],
    reshuffle := fun l => l }

/-- Fresh greedy bookkeeping (the constructor values of lines 386-392). -/
def policyFresh : GreedyPolicy Nat :=
  { search_method := .dfs_greedy, nav_target := none, nav_num_steps := -1,
    num_restarts := 0, num_steps_outside := 0,
    event_trace := [], missed_states := [], random_explore := false }

/-- Environment for the navigation-target scenarios: state 7 is the
previous target (one step away), state 3 a fresh reachable foreground
target. -/
def envNav : GreedyEnv Nat Nat :=
  { app_activity_depth := 0, state_str := "s0", possible_events := [],
    back_event := 0, is_event_explored := fun _ => true,
    reachable_states := [3], st_depth := fun _ => 0,
    st_str := fun s => if s = 3 then "s3" else "s7",
    is_state_explored := fun _ => false,
    navigation_steps := fun s => if s = 7 then [(7, 1)] else if s = 3 then [(3, 2)] else [],
    reshuffle := fun l => l }

/-- Greedy bookkeeping routing toward target 7 with one recorded step. -/
def policyNavKeep : GreedyPolicy Nat :=
  { search_method := .dfs_greedy, nav_target := some 7, nav_num_steps := 1,
    num_restarts := 0, num_steps_outside := 0,
    event_trace := [.navigate], missed_states := [], random_explore := false }

/-- Greedy bookkeeping routing toward target 7 whose recorded step count is
already smaller than the remaining path. -/
def policyNavMiss : GreedyPolicy Nat :=
  { search_method := .dfs_greedy, nav_target := some 7, nav_num_steps := 0,
    num_restarts := 0, num_steps_outside := 0,
    event_trace := [.navigate], missed_states := [], random_explore := false }

/-- Observation stream revealing exactly one new view per scroll. -/
def obsOnePerScroll : Nat → List Nat := fun k => [k]

/-- Observation stream revealing nothing new. -/
def obsNothing : Nat → List Nat := fun _ => []

/-- A three-event recorded journal behind the two skipped entries (HOME and
the start intent). -/
def replayRecords3 : List (Option (String × String)) :=
  [some ("h0", "home"), some ("h1", "start"),
   some ("s1", "e1"), some ("s2", "e2"), some ("s3", "e3")]

/-- Device polls for the four successive replay calls. -/
def replayObs1 : Nat → Option (String × Bool) := fun _ => some ("s1", true)

/-- Device poll reproducing the second recorded signature. -/
def replayObs2 : Nat → Option (String × Bool) := fun _ => some ("s2", true)

/-- Device poll reproducing the third recorded signature. -/
def replayObs3 : Nat → Option (String × Bool) := fun _ => some ("s3", true)

/-- Device poll reproducing the first recorded signature with the app
backgrounded. -/
def replayObsBackground : Nat → Option (String × Bool) := fun _ => some ("s1", false)

/-- The first replay call, with the cursor at its initial position 2. -/
def replayCall1 : ReplayState × ReplayOut String :=
  replayGenerateEvent replayRecords3 replayObs1 { event_idx := 2, num_replay_tries := 0 } 0

/-- The second replay call. -/
def replayCall2 : ReplayState × ReplayOut String :=
  replayGenerateEvent replayRecords3 replayObs2 replayCall1.1 0

/-- The third replay call. -/
def replayCall3 : ReplayState × ReplayOut String :=
  replayGenerateEvent replayRecords3 replayObs3 replayCall2.1 0

/-- The fourth replay call, after the recorded sequence is exhausted. -/
def replayCall4 : ReplayState × ReplayOut String :=
  replayGenerateEvent replayRecords3 replayObs3 replayCall3.1 0

/-- The first candidate event not yet explored in the UTG (the search of
lines 471-475). -/
def firstUnexploredEvent {Ev St : Type} (p : GreedyPolicy St) (env : GreedyEnv Ev St) :
    Option Ev :=
  (greedyCandidates p env).find? (fun e => !(env.is_event_explored e))

/-- Greedy bookkeeping below the restart limit, after a start-then-stop
trace. -/
def policyRestartLow : GreedyPolicy Nat :=
  { search_method := .dfs_greedy, nav_target := none, nav_num_steps := -1,
    num_restarts := 0, num_steps_outside := 0,
    event_trace := [.start_app, .stop_app], missed_states := [],
    random_explore := false }

/-- An app-notes configuration with one note carrying no credential. -/
def notesNoCreds : Option (List AppNote) := some [{ notes := some "open the menu" }]

/-!
Helper lemmas about the embedded operations.
-/

/-- The action counter of the loop never exceeds the number of successfully
generated events in the observation window: exceptions do not count. -/
theorem runLoop_count_le (ec : Nat) (en : Nat → Bool) :
    ∀ (script : List StepOutcome) (iter cnt : Nat),
      (runLoop ec en iter cnt script).1 ≤ cnt + script.count .genEvent := by
  intro script
  induction script with
  | nil =>
    intro iter cnt
    simp only [runLoop]
    split
    · simp
    · split <;> simp
  | cons o rest ih =>
    intro iter cnt
    cases o <;> simp only [runLoop, List.count_cons] <;> split
    case genEvent.isTrue => simp
    case genEvent.isFalse =>
      split
      · simp
      · have h := ih (iter + 1) (cnt + 1)
        simp only [beq_self_eq_true, if_true] at *
        omega
    case genFinished.isTrue => simp
    case genFinished.isFalse =>
      split
      · simp
      · simp only [reduceCtorEq]
        omega
    case raiseKeyboardInterrupt.isTrue => simp
    case raiseKeyboardInterrupt.isFalse =>
      split
      · simp
      · simp only [reduceCtorEq]
        omega
    case raiseInputInterrupted.isTrue => simp
    case raiseInputInterrupted.isFalse =>
      split
      · simp
      · simp only [reduceCtorEq]
        omega
    case raiseOther.isTrue => simp
    case raiseOther.isFalse =>
      split
      · simp
      · have h := ih (iter + 1) cnt
        simp only [beq_self_eq_true, if_true, reduceCtorEq] at *
        omega

/-- The reachable-state scan changes neither the missed-state set nor the
random-explore flag. -/
theorem searchNewTarget_preserves {Ev St : Type} (env : GreedyEnv Ev St) :
    ∀ (l : List St) (p : GreedyPolicy St),
      (searchNewTarget p env l).1.missed_states = p.missed_states ∧
      (searchNewTarget p env l).1.random_explore = p.random_explore := by
  intro l
  induction l with
  | nil => intro p; simp [searchNewTarget]
  | cons x rest ih =>
    intro p
    simp only [searchNewTarget]
    split
    · exact ih p
    · split
      · exact ih p
      · split
        · exact ih p
        · split
          · simp
          · exact ih { p with nav_target := some x }

/-- Any target produced by the reachable-state scan comes from the scanned
list, is a foreground state, is neither missed nor fully explored, and has a
nonempty navigation path. -/
theorem searchNewTarget_spec {Ev St : Type} (env : GreedyEnv Ev St) :
    ∀ (l : List St) (p : GreedyPolicy St) (s : St),
      (searchNewTarget p env l).2 = some s →
        s ∈ l ∧ env.st_depth s = 0 ∧ env.st_str s ∉ p.missed_states ∧
        env.is_state_explored s = false ∧ 0 < (env.navigation_steps s).length := by
  intro l
  induction l with
  | nil => intro p s h; simp [searchNewTarget] at h
  | cons x rest ih =>
    intro p s h
    simp only [searchNewTarget] at h
    by_cases h1 : env.st_depth x ≠ 0
    · rw [if_pos h1] at h
      obtain ⟨hm, hrest⟩ := ih p s h
      exact ⟨List.mem_cons_of_mem _ hm, hrest⟩
    · rw [if_neg h1] at h
      by_cases h2 : env.st_str x ∈ p.missed_states
      · rw [if_pos h2] at h
        obtain ⟨hm, hrest⟩ := ih p s h
        exact ⟨List.mem_cons_of_mem _ hm, hrest⟩
      · rw [if_neg h2] at h
        by_cases h3 : env.is_state_explored x = true
        · rw [if_pos h3] at h
          obtain ⟨hm, hrest⟩ := ih p s h
          exact ⟨List.mem_cons_of_mem _ hm, hrest⟩
        · rw [if_neg h3] at h
          by_cases h4 : (env.navigation_steps x).length > 0
          · rw [if_pos h4] at h
            simp only [Option.some.injEq] at h
            subst h
            push_neg at h1
            exact ⟨List.mem_cons_self _ _, h1, h2,
              Bool.not_eq_true _ ▸ (by simpa using h3), h4⟩
          · rw [if_neg h4] at h
            obtain ⟨hm, hrest⟩ := ih { p with nav_target := some x } s h
            exact ⟨List.mem_cons_of_mem _ hm, hrest⟩

/-- The navigation-target selection never changes the random-explore flag. -/
theorem getNavTarget_random {Ev St : Type} (p : GreedyPolicy St) (env : GreedyEnv Ev St) :
    (getNavTarget p env).1.random_explore = p.random_explore := by
  have hs : ∀ (l : List St) (q : GreedyPolicy St),
      (searchNewTarget q env l).1.random_explore = q.random_explore :=
    fun l q => (searchNewTarget_preserves env l q).2
  cases hp : p.nav_target with
  | none => simp [getNavTarget, hp, hs]
  | some t =>
    by_cases h1 : traceEndsWith p.event_trace [.navigate] = true
    · by_cases h2 : 0 < (env.navigation_steps t).length ∧
          ((env.navigation_steps t).length : Int) ≤ p.nav_num_steps
      · simp [getNavTarget, hp, h1, h2]
      · simp [getNavTarget, hp, h1, h2, hs]
    · simp [getNavTarget, hp, h1, hs]

/-- The event-selection part of a greedy call never changes the
random-explore flag. -/
theorem greedySelection_random {Ev St : Type} (p : GreedyPolicy St) (env : GreedyEnv Ev St) :
    (greedySelection p env).1.random_explore = p.random_explore := by
  have hro : ∀ (q : GreedyPolicy St) (cand : List Ev),
      (randomOrStop q env cand).1.random_explore = q.random_explore := by
    intro q cand
    unfold randomOrStop
    split
    · split <;> simp
    · simp
  cases hf : (greedyCandidates p env).find? (fun e => !(env.is_event_explored e)) with
  | some e => simp [greedySelection, hf]
  | none =>
    cases hg : getNavTarget p env with
    | mk p1 tgt =>
      have hr : p1.random_explore = p.random_explore := by
        have hx := getNavTarget_random p env
        rw [hg] at hx
        exact hx
      cases tgt with
      | some t =>
        cases hnav : env.navigation_steps t with
        | nil => simp [greedySelection, hf, hg, hnav, hro, hr]
        | cons a rest => simp [greedySelection, hf, hg, hnav, hr]
      | none => simp [greedySelection, hf, hg, hro, hr]

/-- Once the greedy policy is in random-exploration mode it stays there. -/
theorem generateGreedy_random_monotone {Ev St : Type} (p : GreedyPolicy St)
    (env : GreedyEnv Ev St) (h : p.random_explore = true) :
    (generateGreedy p env).1.random_explore = true := by
  simp only [generateGreedy]
  repeat' split
  all_goals simp [greedySelection_random, h]

/-- The state-transition bookkeeping step of the naive policy does not
touch the last-event flag string. -/
theorem saveStateTransition_flag (p : NaivePolicy) (env : NaiveEnv) :
    (saveStateTransition p env).last_event_flag = p.last_event_flag := by
  unfold saveStateTransition
  cases p.last_event_str <;> cases env.last_state <;> simp only []
  split <;> rfl

/-- The upward scroll loop sends at most as many scroll events as its
iteration bound. -/
theorem scrollToTopCount_le {V : Type} [DecidableEq V] (obs : Nat → List V) :
    ∀ (fuel k : Nat) (marks : List V), scrollToTopCount obs fuel k marks ≤ fuel := by
  intro fuel
  induction fuel with
  | zero => intro k marks; simp [scrollToTopCount]
  | succ n ih =>
    intro k marks
    simp only [scrollToTopCount]
    split
    · omega
    · have h := ih (k + 1) (marks ++ newViews (obs k) marks)
      omega

/-- The downward scroll loop sends at most as many scroll events as its
iteration bound. -/
theorem scrollDownCount_le {V : Type} [DecidableEq V] (obs : Nat → List V) :
    ∀ (fuel k tf : Nat) (acc : List V), scrollDownCount obs fuel k acc tf ≤ fuel := by
  intro fuel
  induction fuel with
  | zero => intro k tf acc; simp [scrollDownCount]
  | succ n ih =>
    intro k tf acc
    simp only [scrollDownCount]
    split
    · omega
    · split
      · split
        · omega
        · have h := ih (k + 1) (tf + 1) (acc ++ newViews (obs k) acc)
          omega
      · split
        · omega
        · have h := ih (k + 1) tf (acc ++ newViews (obs k) acc)
          omega

/-- With the app backgrounded, the entry walk reports the need to bring the
app to the foreground exactly when a matching entry exists. -/
theorem replayScanFrom_not_foreground {Ev : Type} (cur : String) :
    ∀ (l : List (Option (String × Ev))) (i : Nat),
      replayScanFrom cur false l i =
        (l.findSome? (fun r => match r with
          | some (ss, e) => if ss = cur then some e else none
          | none => none)).map (fun _ => (ScanHit.needForeground : ScanHit Ev)) := by
  intro l
  induction l with
  | nil => intro i; simp [replayScanFrom]
  | cons r rest ih =>
    intro i
    cases r with
    | none => simp [replayScanFrom, List.findSome?_cons, ih]
    | some se =>
      cases se with
      | mk ss e =>
        by_cases hss : ss = cur
        · simp [replayScanFrom, List.findSome?_cons, hss]
        · simp [replayScanFrom, List.findSome?_cons, hss, ih]

/-- With the app backgrounded, the replay scan reports the need to bring it
to the foreground exactly when a matching entry exists. -/
theorem replayScan_not_foreground {Ev : Type} (records : List (Option (String × Ev)))
    (cur : String) (i : Nat) :
    replayScan records cur false i =
      (firstMatchingEvent records cur i).map (fun _ => ScanHit.needForeground) := by
  unfold replayScan firstMatchingEvent
  exact replayScanFrom_not_foreground cur (records.drop i) i

/-- With the app in the foreground, the event the entry walk replays is
exactly the first matching recorded event. -/
theorem replayScanFrom_foreground {Ev : Type} (cur : String) :
    ∀ (l : List (Option (String × Ev))) (i : Nat),
      (replayScanFrom cur true l i).bind scanHitEvent =
        l.findSome? (fun r => match r with
          | some (ss, e) => if ss = cur then some e else none
          | none => none) := by
  intro l
  induction l with
  | nil => intro i; simp [replayScanFrom]
  | cons r rest ih =>
    intro i
    cases r with
    | none => simp [replayScanFrom, List.findSome?_cons, ih]
    | some se =>
      cases se with
      | mk ss e =>
        by_cases hss : ss = cur
        · simp [replayScanFrom, List.findSome?_cons, hss, scanHitEvent]
        · simp [replayScanFrom, List.findSome?_cons, hss, ih]

/-- With the app in the foreground, the event the replay scan replays is
exactly the first matching recorded event. -/
theorem replayScan_foreground {Ev : Type} (records : List (Option (String × Ev)))
    (cur : String) (i : Nat) :
    (replayScan records cur true i).bind scanHitEvent =
      firstMatchingEvent records cur i := by
  unfold replayScan firstMatchingEvent
  exact replayScanFrom_foreground cur (records.drop i) i

/-!
Claim theorems.
-/

/-- C3: the policy loop leaves its running state exactly on the terminal
FINISHED signal, on budget exhaustion, or on an interrupt / cancellation
(KeyboardInterrupt, InputInterruptedException, or a cleared enabled flag);
any other exception raised while generating or sending an event makes the
loop log and continue to the next iteration with the action count
unchanged, and the action count only ever counts successfully generated
events. -/
theorem C3_loop_stop_characterization
    (ec ec2 ec3 : Nat) (en en2 en3 : Nat → Bool)
    (iter iter2 iter3 cnt cnt2 cnt3 : Nat)
    (script script2 script3 rest : List StepOutcome)
    (hen : en iter = true) (hcnt : cnt < ec)
    (hb : cnt2 ≥ ec2) (hen2 : en2 iter2 = true)
    (hen3 : en3 iter3 = false) :
    runLoop ec en iter cnt (.genFinished :: rest) = (cnt, .finished) ∧
    runLoop ec en iter cnt (.raiseKeyboardInterrupt :: rest) = (cnt, .keyboardInterrupt) ∧
    runLoop ec en iter cnt (.raiseInputInterrupted :: rest) = (cnt, .inputInterrupted) ∧
    runLoop ec en iter cnt (.raiseOther :: rest) = runLoop ec en (iter + 1) cnt rest ∧
    runLoop ec en iter cnt (.genEvent :: rest) = runLoop ec en (iter + 1) (cnt + 1) rest ∧
    runLoop ec2 en2 iter2 cnt2 script2 = (cnt2, .budgetExhausted) ∧
    runLoop ec3 en3 iter3 cnt3 script3 = (cnt3, .disabled) ∧
    (runLoop ec en iter cnt script).1 ≤ cnt + script.count .genEvent := by
  have hlt : ¬ cnt ≥ ec := by omega
  refine ⟨?_, ?_, ?_, ?_, ?_, ?_, ?_, ?_⟩
  · simp [runLoop, hen, hlt]
  · simp [runLoop, hen, hlt]
  · simp [runLoop, hen, hlt]
  · simp [runLoop, hen, hlt]
  · simp [runLoop, hen, hlt]
  · cases script2 with
    | nil => simp [runLoop, hen2, hb]
    | cons h t => cases h <;> simp [runLoop, hen2, hb]
  · cases script3 with
    | nil => simp [runLoop, hen3]
    | cons h t => cases h <;> simp [runLoop, hen3]
  · exact runLoop_count_le ec en script iter cnt

/-- C3 witness: the stop and continuation equations at concrete inputs. -/
theorem C3_loop_stop_characterization_witness :
    runLoop 5 enabledTrue 0 0 [.genFinished] = (0, .finished) ∧
    runLoop 5 enabledTrue 0 0 [.raiseKeyboardInterrupt] = (0, .keyboardInterrupt) ∧
    runLoop 5 enabledTrue 0 0 [.raiseInputInterrupted] = (0, .inputInterrupted) ∧
    runLoop 5 enabledTrue 0 0 [.raiseOther] = runLoop 5 enabledTrue 1 0 [] ∧
    runLoop 5 enabledTrue 0 0 [.genEvent] = runLoop 5 enabledTrue 1 1 [] ∧
    runLoop 3 enabledTrue 0 3 [.genEvent] = (3, .budgetExhausted) ∧
    runLoop 4 enabledFalse 0 1 [] = (1, .disabled) ∧
    (runLoop 5 enabledTrue 0 0 [.genEvent, .raiseOther]).1 ≤
      0 + [StepOutcome.genEvent, StepOutcome.raiseOther].count .genEvent :=
  C3_loop_stop_characterization 5 3 4 enabledTrue enabledTrue enabledFalse
    0 0 0 0 3 1 [.genEvent, .raiseOther] [.genEvent] [] [] rfl (by decide)
    (by decide) rfl rfl

/-- The event-selection part of a greedy call never produces the
depth-branch BACK key event. -/
theorem greedySelection_ne_key_back {Ev St : Type} (p : GreedyPolicy St)
    (env : GreedyEnv Ev St) :
    (greedySelection p env).2 ≠ GreedyOut.key_back := by
  have hro : ∀ (q : GreedyPolicy St) (cand : List Ev),
      (randomOrStop q env cand).2 ≠ GreedyOut.key_back := by
    intro q cand
    unfold randomOrStop
    split
    · cases env.reshuffle cand <;> simp
    · simp
  cases hf : (greedyCandidates p env).find? (fun e => !(env.is_event_explored e)) with
  | some e => simp [greedySelection, hf]
  | none =>
    cases hg : getNavTarget p env with
    | mk p1 tgt =>
      cases tgt with
      | some t =>
        cases hnav : env.navigation_steps t with
        | cons a rest => simp [greedySelection, hf, hg, hnav]
        | nil =>
          simp only [greedySelection, hf, hg, hnav]
          exact hro p1 (greedyCandidates p env)
      | none =>
        simp only [greedySelection, hf, hg]
        exact hro p1 (greedyCandidates p env)

/-- C2 counterexample: the two outside-the-app thresholds are equal
(both 1000), and at counter value 1001 - the first value past
MAX_NUM_STEPS_OUTSIDE, where the claim expects BACK - both the greedy and
the task policy already return the force-stop intent. -/
theorem C2_counterexample_equal_thresholds :
    MAX_NUM_STEPS_OUTSIDE = MAX_NUM_STEPS_OUTSIDE_KILL ∧
    (generateGreedy policyOutside envOutside).2 = GreedyOut.intent_stop ∧
    (taskClassifyDepth taskOutside 1 "s0" "app" "task").2 = TaskDepthOut.intent_stop :=
  ⟨rfl, rfl, rfl⟩

/-- C2 (amended): with the app backgrounded, whenever the incremented
outside-the-app counter exceeds MAX_NUM_STEPS_OUTSIDE the greedy and task
policies return the force-stop intent; because MAX_NUM_STEPS_OUTSIDE_KILL
equals MAX_NUM_STEPS_OUTSIDE, the BACK branch is unreachable and neither
policy ever returns the depth-branch BACK event. -/
theorem C2_amended_outside_escalation {Ev St : Type} (p p3 : GreedyPolicy St)
    (env : GreedyEnv Ev St) (tp tp3 : TaskBookkeeping) (s app task : String)
    (hd : env.app_activity_depth > 0)
    (hn : p.num_steps_outside + 1 > MAX_NUM_STEPS_OUTSIDE)
    (htn : tp.num_steps_outside + 1 > MAX_NUM_STEPS_OUTSIDE) :
    (generateGreedy p env).2 = GreedyOut.intent_stop ∧
    (taskClassifyDepth tp env.app_activity_depth s app task).2 = TaskDepthOut.intent_stop ∧
    (generateGreedy p3 env).2 ≠ GreedyOut.key_back ∧
    (taskClassifyDepth tp3 env.app_activity_depth s app task).2 ≠ TaskDepthOut.key_back := by
  have hd0 : ¬ env.app_activity_depth < 0 := by omega
  have hkill : p.num_steps_outside + 1 > MAX_NUM_STEPS_OUTSIDE_KILL := hn
  have htkill : tp.num_steps_outside + 1 > MAX_NUM_STEPS_OUTSIDE_KILL := htn
  refine ⟨?_, ?_, ?_, ?_⟩
  · simp [generateGreedy, hd0, hd, hn, hkill]
  · simp [taskClassifyDepth, hd0, hd, htn, htkill]
  · by_cases hc : p3.num_steps_outside + 1 > MAX_NUM_STEPS_OUTSIDE
    · have hck : p3.num_steps_outside + 1 > MAX_NUM_STEPS_OUTSIDE_KILL := hc
      simp [generateGreedy, hd0, hd, hc, hck]
    · simp only [generateGreedy]
      rw [if_neg hd0, if_pos hd]
      simp only [gt_iff_lt]
      rw [if_neg ?hc1]
      case hc1 =>
        simpa using hc
      exact greedySelection_ne_key_back _ _
  · by_cases hc : tp3.num_steps_outside + 1 > MAX_NUM_STEPS_OUTSIDE
    · have hck : tp3.num_steps_outside + 1 > MAX_NUM_STEPS_OUTSIDE_KILL := hc
      simp [taskClassifyDepth, hd0, hd, hc, hck]
    · simp [taskClassifyDepth, hd0, hd, hc]

/-- C2 witness: the amended escalation behavior at counter 1000 (incremented
to 1001) with activity depth 1. -/
theorem C2_amended_outside_escalation_witness :
    (generateGreedy policyOutside envOutside).2 = GreedyOut.intent_stop ∧
    (taskClassifyDepth taskOutside envOutside.app_activity_depth "s0" "app" "task").2 =
      TaskDepthOut.intent_stop ∧
    (generateGreedy policyFresh envOutside).2 ≠ GreedyOut.key_back ∧
    (taskClassifyDepth taskOutside envOutside.app_activity_depth "s0" "app" "task").2 ≠
      TaskDepthOut.key_back :=
  C2_amended_outside_escalation policyOutside policyFresh envOutside taskOutside
    taskOutside "s0" "app" "task" (by decide) (by decide) (by decide)

/-- C1 counterexample: with six recorded start attempts and the app not in
the foreground, the naive graph-search policy raises
InputInterruptedException - terminating the run - rather than switching to
a random-exploration fallback mode as the claim states for naive and greedy
alike. -/
theorem C1_counterexample_naive_terminates :
    generateNaive policyNaiveStarts envNaiveDown =
      Except.error NaiveErr.appCannotStart := rfl

/-- C1 (amended): when the app activity depth is negative the greedy policy
attempts restart via the start intent while counting consecutive restarts,
and once the count passes MAX_NUM_RESTARTS it switches to
random-exploration fallback mode, which persists for the remainder of the
run; the naive policy, however, terminates the run with
InputInterruptedException once its recorded start-attempt count exceeds
MAX_NUM_RESTARTS. -/
theorem C1_amended_restart_fallback {Ev St : Type} (p p2 q : GreedyPolicy St)
    (env env2 env3 : GreedyEnv Ev St) (np : NaivePolicy) (nenv : NaiveEnv)
    (hd : env.app_activity_depth < 0)
    (hss : traceEndsWith p.event_trace [.start_app, .stop_app] = true)
    (hns : traceEndsWith p.event_trace [.start_app] = false)
    (hmax : p.num_restarts + 1 > MAX_NUM_RESTARTS)
    (hd2 : env2.app_activity_depth < 0)
    (hss2 : traceEndsWith p2.event_trace [.start_app, .stop_app] = true)
    (hns2 : traceEndsWith p2.event_trace [.start_app] = false)
    (hle2 : p2.num_restarts + 1 ≤ MAX_NUM_RESTARTS)
    (hq : q.random_explore = true)
    (hfg : nenv.foreground = false)
    (hcnt : traceCount np.last_event_flag .start_app > MAX_NUM_RESTARTS) :
    (generateGreedy p env).1.random_explore = true ∧
    (generateGreedy p2 env2).2 = GreedyOut.intent_start ∧
    (generateGreedy p2 env2).1.num_restarts = p2.num_restarts + 1 ∧
    (generateGreedy p2 env2).1.event_trace = p2.event_trace ++ [.start_app] ∧
    (generateGreedy q env3).1.random_explore = true ∧
    generateNaive np nenv = Except.error NaiveErr.appCannotStart := by
  have hnotmax2 : ¬ p2.num_restarts + 1 > MAX_NUM_RESTARTS := by omega
  have hflag := saveStateTransition_flag np nenv
  refine ⟨?_, ?_, ?_, ?_, ?_, ?_⟩
  · simp [generateGreedy, hd, hss, hns, hmax, greedySelection_random]
  · simp [generateGreedy, hd2, hss2, hns2, hnotmax2]
  · simp [generateGreedy, hd2, hss2, hns2, hnotmax2]
  · simp [generateGreedy, hd2, hss2, hns2, hnotmax2]
  · exact generateGreedy_random_monotone q env3 hq
  · simp [generateNaive, hfg, hflag, hcnt]

/-- C1 witness: the amended restart behavior at concrete inputs (depth -1,
a start-then-stop trace, restart count at and below the limit, and six
recorded naive start attempts). -/
theorem C1_amended_restart_fallback_witness :
    (generateGreedy policyRestart envRestart).1.random_explore = true ∧
    (generateGreedy policyRestartLow envRestart).2 = GreedyOut.intent_start ∧
    (generateGreedy policyRestartLow envRestart).1.num_restarts =
      policyRestartLow.num_restarts + 1 ∧
    (generateGreedy policyRestartLow envRestart).1.event_trace =
      policyRestartLow.event_trace ++ [.start_app] ∧
    (generateGreedy policyRandomMode envRestart).1.random_explore = true ∧
    generateNaive policyNaiveStarts envNaiveDown =
      Except.error NaiveErr.appCannotStart :=
  C1_amended_restart_fallback policyRestart policyRestartLow policyRandomMode
    envRestart envRestart envRestart policyNaiveStarts envNaiveDown
    (by decide) (by decide) (by decide) (by decide)
    (by decide) (by decide) (by decide) (by decide)
    rfl rfl (by decide)

/-- C4: with the app in the foreground, if any currently offered event is
unexplored in the UTG, the greedy policy returns the first unexplored
candidate (the candidate list being the offered events with BACK appended
last under DFS or inserted first under BFS) and does not invoke navigation:
the navigation target, recorded step count, and missed-state set are left
untouched and the trace records an explore step. -/
theorem C4_unexplored_event_first {Ev St : Type} (p : GreedyPolicy St)
    (env : GreedyEnv Ev St) (e0 : Ev)
    (hd : env.app_activity_depth = 0)
    (hmem : e0 ∈ env.possible_events)
    (hunex : env.is_event_explored e0 = false) :
    (firstUnexploredEvent p env).isSome = true ∧
    (generateGreedy p env).2 =
      GreedyOut.explore_event ((firstUnexploredEvent p env).getD env.back_event) ∧
    env.is_event_explored ((firstUnexploredEvent p env).getD env.back_event) = false ∧
    (firstUnexploredEvent p env).getD env.back_event ∈ greedyCandidates p env ∧
    (p.search_method = SearchMethod.dfs_greedy →
      greedyCandidates p env = env.possible_events ++ [env.back_event]) ∧
    (p.search_method = SearchMethod.bfs_greedy →
      greedyCandidates p env = env.back_event :: env.possible_events) ∧
    (generateGreedy p env).1.nav_target = p.nav_target ∧
    (generateGreedy p env).1.nav_num_steps = p.nav_num_steps ∧
    (generateGreedy p env).1.missed_states = p.missed_states.erase env.state_str ∧
    (generateGreedy p env).1.event_trace = p.event_trace ++ [.explore] := by
  have hmemc : e0 ∈ greedyCandidates p env := by
    unfold greedyCandidates
    cases p.search_method
    · exact List.mem_append_left _ hmem
    · exact List.mem_cons_of_mem _ hmem
  have hsome : (firstUnexploredEvent p env).isSome = true := by
    unfold firstUnexploredEvent
    rw [List.find?_isSome]
    exact ⟨e0, hmemc, by simp [hunex]⟩
  obtain ⟨e, hfind⟩ := Option.isSome_iff_exists.mp hsome
  have hfind' : (greedyCandidates p env).find?
      (fun e => !(env.is_event_explored e)) = some e := hfind
  have he : env.is_event_explored e = false := by
    have h := List.find?_some hfind'
    simpa using h
  have hm : e ∈ greedyCandidates p env := List.mem_of_find?_eq_some hfind'
  have hget : (firstUnexploredEvent p env).getD env.back_event = e := by
    rw [hfind]
    rfl
  have hne : ¬ env.app_activity_depth < 0 := by omega
  have hng : ¬ env.app_activity_depth > 0 := by omega
  have hfind2 :
      (greedyCandidates
          { p with missed_states := p.missed_states.erase env.state_str,
                   num_steps_outside := 0 } env).find?
        (fun e => !(env.is_event_explored e)) = some e := hfind'
  have hgen : generateGreedy p env =
      ({ p with missed_states := p.missed_states.erase env.state_str,
                num_steps_outside := 0,
                event_trace := p.event_trace ++ [.explore] },
        GreedyOut.explore_event e) := by
    simp only [generateGreedy]
    rw [if_neg hne, if_neg hng]
    simp [greedySelection, hfind2]
  refine ⟨hsome, ?_, ?_, ?_, ?_, ?_, ?_, ?_, ?_, ?_⟩
  · rw [hgen, hget]
  · rw [hget]
    exact he
  · rw [hget]
    exact hm
  · intro hdfs
    simp [greedyCandidates, hdfs]
  · intro hbfs
    simp [greedyCandidates, hbfs]
  · rw [hgen]
  · rw [hgen]
  · rw [hgen]
  · rw [hgen]

/-- C4 witness: the unexplored-first behavior on a foreground state offering
one unexplored event. -/
theorem C4_unexplored_event_first_witness :
    (firstUnexploredEvent policyFresh envExplore).isSome = true ∧
    (generateGreedy policyFresh envExplore).2 =
      GreedyOut.explore_event
        ((firstUnexploredEvent policyFresh envExplore).getD envExplore.back_event) ∧
    envExplore.is_event_explored
      ((firstUnexploredEvent policyFresh envExplore).getD envExplore.back_event) = false ∧
    (firstUnexploredEvent policyFresh envExplore).getD envExplore.back_event ∈
      greedyCandidates policyFresh envExplore ∧
    (policyFresh.search_method = SearchMethod.dfs_greedy →
      greedyCandidates policyFresh envExplore =
        envExplore.possible_events ++ [envExplore.back_event]) ∧
    (policyFresh.search_method = SearchMethod.bfs_greedy →
      greedyCandidates policyFresh envExplore =
        envExplore.back_event :: envExplore.possible_events) ∧
    (generateGreedy policyFresh envExplore).1.nav_target = policyFresh.nav_target ∧
    (generateGreedy policyFresh envExplore).1.nav_num_steps = policyFresh.nav_num_steps ∧
    (generateGreedy policyFresh envExplore).1.missed_states =
      policyFresh.missed_states.erase envExplore.state_str ∧
    (generateGreedy policyFresh envExplore).1.event_trace =
      policyFresh.event_trace ++ [.explore] :=
  C4_unexplored_event_first policyFresh envExplore 5 (by decide) (by decide) rfl

/-- Python set.add puts the element in the set. -/
theorem setInsert_mem_self (l : List String) (s : String) : s ∈ setInsert l s := by
  unfold setInsert
  split
  · assumption
  · simp

/-- C5: after a navigation step, if the previous navigation target still has
a nonempty path whose length has not grown beyond the recorded step count,
the same target is kept (only the recorded step count is refreshed);
otherwise the state identity of the target is added to the missed set and any
newly chosen target is a reachable foreground state that is neither in the
updated missed set nor fully explored and has a nonempty navigation path. -/
theorem C5_nav_target_keep_or_replace {Ev St : Type} (p : GreedyPolicy St)
    (env : GreedyEnv Ev St) (t s : St)
    (ht : p.nav_target = some t)
    (hnav : traceEndsWith p.event_trace [.navigate] = true) :
    (0 < (env.navigation_steps t).length ∧
        ((env.navigation_steps t).length : Int) ≤ p.nav_num_steps →
      getNavTarget p env =
        ({ p with nav_num_steps := ((env.navigation_steps t).length : Int) }, some t)) ∧
    (¬(0 < (env.navigation_steps t).length ∧
        ((env.navigation_steps t).length : Int) ≤ p.nav_num_steps) →
      env.st_str t ∈ (getNavTarget p env).1.missed_states ∧
      ((getNavTarget p env).2 = some s →
        s ∈ env.reachable_states ∧ env.st_depth s = 0 ∧
        env.st_str s ∉ setInsert p.missed_states (env.st_str t) ∧
        env.is_state_explored s = false ∧ 0 < (env.navigation_steps s).length)) := by
  constructor
  · intro hkeep
    simp [getNavTarget, ht, hnav, hkeep]
  · intro hmiss
    have hred : getNavTarget p env =
        searchNewTarget
          { p with missed_states := setInsert p.missed_states (env.st_str t) }
          env env.reachable_states := by
      simp [getNavTarget, ht, hnav, hmiss]
    constructor
    · rw [hred, (searchNewTarget_preserves env env.reachable_states _).1]
      exact setInsert_mem_self _ _
    · intro hres
      rw [hred] at hres
      have hspec := searchNewTarget_spec env env.reachable_states _ s hres
      simpa using hspec

/-- C5 witness: the keep and replace scenarios at concrete navigation
targets (target 7 kept when its path did not grow; target 7 marked missed
and target 3 chosen when the path grew). -/
theorem C5_nav_target_keep_or_replace_witness :
    getNavTarget policyNavKeep envNav =
      ({ policyNavKeep with nav_num_steps := 1 }, some 7) ∧
    "s7" ∈ (getNavTarget policyNavMiss envNav).1.missed_states ∧
    (3 ∈ envNav.reachable_states ∧ envNav.st_depth 3 = 0 ∧
      envNav.st_str 3 ∉ setInsert policyNavMiss.missed_states (envNav.st_str 7) ∧
      envNav.is_state_explored 3 = false ∧ 0 < (envNav.navigation_steps 3).length) :=
  ⟨(C5_nav_target_keep_or_replace policyNavKeep envNav 7 3 rfl (by decide)).1
      (by decide),
    ((C5_nav_target_keep_or_replace policyNavMiss envNav 7 3 rfl (by decide)).2
      (by decide)).1,
    ((C5_nav_target_keep_or_replace policyNavMiss envNav 7 3 rfl (by decide)).2
      (by decide)).2 (by decide)⟩

/-- C6 counterexample: the oracle index -2 on a one-element candidate list
is out of range but is not clamped to 0; the list subscription raises
IndexError, where the claim says out-of-range indices are clamped rather
than raising. -/
theorem C6_counterexample_negative_index :
    selectActionFromResponse (-2) ["a"] = Except.error PyErr.indexError := rfl

/-- C6 (amended): index -1 returns the terminal finished signal; an index
at least the candidate count is clamped to 0 with a logged warning (still
raising IndexError when the candidate list is empty); an in-range
non-negative index selects that candidate; an index at most -2 is used as a
Python negative index, selecting from the end of the list when at least
-len and raising IndexError otherwise. -/
theorem C6_amended_response_handling {A : Type} (idx : Int) (actions : List A) (a : A) :
    (idx = -1 → selectActionFromResponse idx actions = .ok .finished) ∧
    (idx ≥ (actions.length : Int) → actions.get? 0 = some a →
      selectActionFromResponse idx actions = .ok (.action a)) ∧
    (idx ≥ (actions.length : Int) → actions = [] →
      selectActionFromResponse idx actions = .error .indexError) ∧
    (0 ≤ idx → idx < (actions.length : Int) → actions.get? idx.toNat = some a →
      selectActionFromResponse idx actions = .ok (.action a)) ∧
    (idx ≤ -2 → -(actions.length : Int) ≤ idx →
      actions.get? ((actions.length : Int) + idx).toNat = some a →
      selectActionFromResponse idx actions = .ok (.action a)) ∧
    (idx ≤ -2 → idx < -(actions.length : Int) →
      selectActionFromResponse idx actions = .error .indexError) := by
  refine ⟨?_, ?_, ?_, ?_, ?_, ?_⟩
  · intro h
    simp [selectActionFromResponse, h]
  · intro h1 h2
    have hne : actions ≠ [] := by
      intro hc
      subst hc
      simp at h2
    have hlen : 0 < actions.length := List.length_pos.mpr hne
    have hn1 : ¬ idx = -1 := by omega
    have h2g : actions[(0 : Nat)]? = some a := by simpa using h2
    simp only [selectActionFromResponse]
    rw [if_neg hn1, if_pos h1]
    simp [pyListGet, h2g]
  · intro h1 h2
    subst h2
    have hn1 : ¬ idx = -1 := by simp at h1; omega
    simp only [selectActionFromResponse]
    rw [if_neg hn1, if_pos h1]
    simp [pyListGet]
  · intro h0 hlt hget
    have hn1 : ¬ idx = -1 := by omega
    have hgetg : actions[idx.toNat]? = some a := by simpa using hget
    simp only [selectActionFromResponse]
    rw [if_neg hn1, if_neg (by omega : ¬ idx ≥ (actions.length : Int))]
    simp [pyListGet, h0, hgetg]
  · intro h2 hge hget
    have hn1 : ¬ idx = -1 := by omega
    simp only [selectActionFromResponse, pyListGet]
    rw [if_neg hn1, if_neg (by omega : ¬ idx ≥ (actions.length : Int)),
      if_neg (by omega : ¬ (0:Int) ≤ idx),
      if_pos (by omega : (0:Int) ≤ (actions.length : Int) + idx)]
    have hgetg : actions[((actions.length : Int) + idx).toNat]? = some a := by
      simpa using hget
    simp [hgetg]
  · intro h2 hlt
    have hn1 : ¬ idx = -1 := by omega
    simp only [selectActionFromResponse, pyListGet]
    rw [if_neg hn1, if_neg (by omega : ¬ idx ≥ (actions.length : Int)),
      if_neg (by omega : ¬ (0:Int) ≤ idx),
      if_neg (by omega : ¬ (0:Int) ≤ (actions.length : Int) + idx)]

/-- C6 witness: the amended response handling at concrete indices on a
two-element candidate list. -/
theorem C6_amended_response_handling_witness :
    selectActionFromResponse (-1) ["x", "y"] = .ok .finished ∧
    selectActionFromResponse 5 ["x", "y"] = .ok (.action "x") ∧
    selectActionFromResponse 3 ([] : List String) = .error .indexError ∧
    selectActionFromResponse 1 ["x", "y"] = .ok (.action "y") ∧
    selectActionFromResponse (-2) ["x", "y"] = .ok (.action "x") ∧
    selectActionFromResponse (-3) ["x", "y"] = .error .indexError :=
  ⟨(C6_amended_response_handling (-1) ["x", "y"] "x").1 rfl,
   (C6_amended_response_handling 5 ["x", "y"] "x").2.1 (by decide) rfl,
   (C6_amended_response_handling 3 ([] : List String) "x").2.2.1 (by decide) rfl,
   (C6_amended_response_handling 1 ["x", "y"] "y").2.2.2.1 (by decide) (by decide) rfl,
   (C6_amended_response_handling (-2) ["x", "y"] "x").2.2.2.2.1 (by decide) (by decide)
     rfl,
   (C6_amended_response_handling (-3) ["x", "y"] "x").2.2.2.2.2 (by decide) (by decide)⟩

/-- C7: explicit notes text "pin: 4821" yields exactly the pin credential
"4821"; explicit text matching no credential pattern and containing no
standalone 4-digit token yields the empty credential map with no PIN
defaulted; and the authentication-shortcut credential computation ends up
with the default PIN "1234" when a PIN-shaped input field is present and
nothing was extracted from any source. -/
theorem C7_credential_extraction (config cfg2 : Option (List AppNote))
    (t prompt : String)
    (h1 : searchPatterns pinPatterns t = none)
    (h2 : searchPatterns passwordPatterns t = none)
    (h3 : searchPatterns usernamePatterns t = none)
    (h4 : searchPatterns emailPatterns t = none)
    (h5 : reSearch fourDigitPattern t = none)
    (h6 : ¬ t = "")
    (hc : configCredentials cfg2 = emptyCredentials)
    (hp : hasPinField prompt = true) :
    extractCredentialsFromNotes (some "pin: 4821") config =
      { pin := some "4821", password := none, username := none, email := none } ∧
    extractCredentialsFromNotes (some t) config = emptyCredentials ∧
    tryDirectAuthCredentials prompt cfg2 =
      { pin := some "1234", password := none, username := none, email := none } := by
  refine ⟨rfl, ?_, ?_⟩
  · simp [extractCredentialsFromNotes, extractFromText, h1, h2, h3, h4, h5, h6,
      emptyCredentials]
  · simp [tryDirectAuthCredentials, extractCredentialsFromNotes,
      configCredentialsDefaulted, hc, emptyCredentials]

/-- C7 witness: the three extraction behaviors at concrete inputs (the text
"abc" has no credential keywords and no 4-digit token; the prompt contains
a PIN-shaped input field; the configuration is empty). -/
theorem C7_credential_extraction_witness :
    extractCredentialsFromNotes (some "pin: 4821") none =
      { pin := some "4821", password := none, username := none, email := none } ∧
    extractCredentialsFromNotes (some "abc") none = emptyCredentials ∧
    tryDirectAuthCredentials "<input pin>" none =
      { pin := some "1234", password := none, username := none, email := none } :=
  C7_credential_extraction none none "abc" "<input pin>" rfl rfl rfl rfl rfl
    (by decide) rfl (by decide)

/-- C10: when the helper is invoked without explicit notes text and the
configured notes yield no credential (no pattern match and no standalone
4-digit token), the returned map is exactly the default pin map; moreover
the no-text path never returns an empty credential map, for any
configuration. -/
theorem C10_default_pin (config config2 : Option (List AppNote))
    (h : configCredentials config = emptyCredentials) :
    extractCredentialsFromNotes none config =
      { pin := some "1234", password := none, username := none, email := none } ∧
    extractCredentialsFromNotes none config2 ≠ emptyCredentials := by
  constructor
  · simp [extractCredentialsFromNotes, configCredentialsDefaulted, h, emptyCredentials]
  · simp only [extractCredentialsFromNotes, configCredentialsDefaulted]
    split
    · simp [emptyCredentials]
    · rename_i hne
      exact hne

/-- C10 witness: the default pin map on an empty configuration, and a
nonempty result on a configuration whose note has no credential. -/
theorem C10_default_pin_witness :
    extractCredentialsFromNotes none none =
      { pin := some "1234", password := none, username := none, email := none } ∧
    extractCredentialsFromNotes none notesNoCreds ≠ emptyCredentials :=
  C10_default_pin none notesNoCreds rfl

/-- Two scrolls that each reveal exactly one new view stop the downward
loop after the second scroll. -/
theorem scrollDownCount_two_ones {V : Type} [DecidableEq V] (obs : Nat → List V)
    (k : Nat) (acc : List V)
    (h1 : (newViews (obs k) acc).length = 1)
    (h2 : (newViews (obs (k + 1)) (acc ++ newViews (obs k) acc)).length = 1) :
    ∀ fuel, scrollDownCount obs (fuel + 2) k acc 0 = 2 := by
  intro fuel
  show scrollDownCount obs ((fuel + 1) + 1) k acc 0 = 2
  simp [scrollDownCount, h1, h2]

/-- C8: both scroll-flattening loops send at most MAX_SCROLL_NUM scroll
events (so flattening terminates); the upward loop stops after one scroll
that reveals no new view; the downward accumulation loop stops after one
scroll that reveals no new view, and after two consecutive scrolls that
each reveal fewer than two new views. -/
theorem C8_scroll_termination {V : Type} [DecidableEq V] (obs : Nat → List V)
    (marks acc : List V) (k tf : Nat) :
    scrollToTopCount obs MAX_SCROLL_NUM k marks ≤ MAX_SCROLL_NUM ∧
    scrollDownCount obs MAX_SCROLL_NUM k acc tf ≤ MAX_SCROLL_NUM ∧
    (newViews (obs k) marks = [] → scrollToTopCount obs MAX_SCROLL_NUM k marks = 1) ∧
    (newViews (obs k) acc = [] → scrollDownCount obs MAX_SCROLL_NUM k acc tf = 1) ∧
    ((newViews (obs k) acc).length = 1 →
      (newViews (obs (k + 1)) (acc ++ newViews (obs k) acc)).length = 1 →
      scrollDownCount obs MAX_SCROLL_NUM k acc 0 = 2) := by
  refine ⟨scrollToTopCount_le obs _ _ _, scrollDownCount_le obs _ _ _ _, ?_, ?_, ?_⟩
  · intro h
    show scrollToTopCount obs (6 + 1) k marks = 1
    simp [scrollToTopCount, h]
  · intro h
    show scrollDownCount obs (6 + 1) k acc tf = 1
    simp [scrollDownCount, h]
  · intro h1 h2
    exact scrollDownCount_two_ones obs k acc h1 h2 5

/-- C8 witness: the bounds and early stops on concrete observation streams
(one new view per scroll, and no new views at all). -/
theorem C8_scroll_termination_witness :
    scrollToTopCount obsOnePerScroll MAX_SCROLL_NUM 0 [] ≤ MAX_SCROLL_NUM ∧
    scrollDownCount obsOnePerScroll MAX_SCROLL_NUM 0 [] 0 ≤ MAX_SCROLL_NUM ∧
    scrollToTopCount obsNothing MAX_SCROLL_NUM 0 [] = 1 ∧
    scrollDownCount obsNothing MAX_SCROLL_NUM 0 [] 0 = 1 ∧
    scrollDownCount obsOnePerScroll MAX_SCROLL_NUM 0 [] 0 = 2 :=
  ⟨(C8_scroll_termination obsOnePerScroll [] [] 0 0).1,
   (C8_scroll_termination obsOnePerScroll [] [] 0 0).2.1,
   (C8_scroll_termination obsNothing [] [] 0 0).2.2.1 rfl,
   (C8_scroll_termination obsNothing [] [] 0 0).2.2.2.1 rfl,
   (C8_scroll_termination obsOnePerScroll [] [] 0 0).2.2.2.2 rfl rfl⟩

/-- C9 counterexample: on a three-event recorded sequence (behind the two
skipped entries) with a device reproducing the three start-state signatures
in order, the policy replays the three events, but the fourth call returns
no event (Python None) with its cursor state unchanged instead of ending
the run: the value None is not the FINISHED signal and raises no
interruption, so the loop keeps counting actions within its budget, as the
final conjunct shows for the induced outcome sequence. -/
theorem C9_counterexample_run_continues :
    replayCall1.2 = ReplayOut.replay_event "e1" ∧
    replayCall2.2 = ReplayOut.replay_event "e2" ∧
    replayCall3.2 = ReplayOut.replay_event "e3" ∧
    replayCall4 = (replayCall3.1, ReplayOut.no_event) ∧
    runLoop 10 enabledTrue 0 0 [.genEvent, .genEvent, .genEvent, .genEvent] =
      (4, StopReason.outOfScript) :=
  ⟨rfl, rfl, rfl, rfl, rfl⟩

/-- C9 (amended): each replay call scans forward from the read cursor for
the first loadable entry whose recorded start-state signature equals the
signature of the live state: with the app in the foreground it replays exactly
the event of that entry; with the app backgrounded it emits the
bring-to-foreground intent without advancing the cursor; and once the
cursor has passed the recorded sequence a call returns no event rather
than ending the run (the end-of-replay interruption is commented out). -/
theorem C9_amended_replay_behavior {Ev : Type} (records : List (Option (String × Ev)))
    (obs : Nat → Option (String × Bool)) (st st2 : ReplayState) (t : Nat)
    (cur : String) (e : Ev)
    (hidx : st.event_idx < records.length)
    (htr : st.num_replay_tries < MAX_REPLY_TRIES) :
    (obs t = some (cur, true) →
      firstMatchingEvent records cur st.event_idx = some e →
      (replayGenerateEvent records obs st t).2 = ReplayOut.replay_event e) ∧
    (obs t = some (cur, false) →
      firstMatchingEvent records cur st.event_idx = some e →
      replayGenerateEvent records obs st t =
        ({ st with num_replay_tries := st.num_replay_tries + 1 },
          ReplayOut.foreground_intent)) ∧
    (st2.event_idx ≥ records.length →
      replayGenerateEvent records obs st2 t = (st2, ReplayOut.no_event)) := by
  obtain ⟨m, hm⟩ : ∃ m, MAX_REPLY_TRIES - st.num_replay_tries = m + 1 :=
    ⟨MAX_REPLY_TRIES - st.num_replay_tries - 1, by omega⟩
  refine ⟨?_, ?_, ?_⟩
  · intro ho hf
    have hb := replayScan_foreground records cur st.event_idx
    rw [hf] at hb
    cases hsc : replayScan records cur true st.event_idx with
    | none =>
      rw [hsc] at hb
      simp at hb
    | some hit =>
      cases hit with
      | needForeground =>
        rw [hsc] at hb
        simp [scanHitEvent] at hb
      | matched e1 n =>
        rw [hsc] at hb
        simp [scanHitEvent] at hb
        subst hb
        unfold replayGenerateEvent
        rw [hm]
        simp [replayLoopFuel, hidx, htr, ho, hsc]
  · intro ho hf
    have hb := replayScan_not_foreground records cur st.event_idx
    rw [hf] at hb
    unfold replayGenerateEvent
    rw [hm]
    simp [replayLoopFuel, hidx, htr, ho, hb]
  · intro h
    have hcond : ¬ (st2.event_idx < records.length ∧
        st2.num_replay_tries < MAX_REPLY_TRIES) := by omega
    unfold replayGenerateEvent
    cases hfe : MAX_REPLY_TRIES - st2.num_replay_tries with
    | zero => simp [replayLoopFuel]
    | succ m2 => simp [replayLoopFuel, hcond]

/-- C9 witness: the amended replay behavior on the concrete three-event
journal (a foreground match replaying the recorded event, a backgrounded
match yielding the bring-to-foreground intent with the cursor unchanged,
and an exhausted cursor yielding no event). -/
theorem C9_amended_replay_behavior_witness :
    (replayGenerateEvent replayRecords3 replayObs1
        { event_idx := 2, num_replay_tries := 0 } 0).2 = ReplayOut.replay_event "e1" ∧
    replayGenerateEvent replayRecords3 replayObsBackground
        { event_idx := 2, num_replay_tries := 0 } 0 =
      ({ event_idx := 2, num_replay_tries := 1 }, ReplayOut.foreground_intent) ∧
    replayGenerateEvent replayRecords3 replayObs1
        { event_idx := 5, num_replay_tries := 0 } 0 =
      ({ event_idx := 5, num_replay_tries := 0 }, ReplayOut.no_event) :=
  ⟨(C9_amended_replay_behavior replayRecords3 replayObs1
      { event_idx := 2, num_replay_tries := 0 } { event_idx := 5, num_replay_tries := 0 }
      0 "s1" "e1" (by decide) (by decide)).1 rfl rfl,
   (C9_amended_replay_behavior replayRecords3 replayObsBackground
      { event_idx := 2, num_replay_tries := 0 } { event_idx := 5, num_replay_tries := 0 }
      0 "s1" "e1" (by decide) (by decide)).2.1 rfl rfl,
   (C9_amended_replay_behavior replayRecords3 replayObs1
      { event_idx := 2, num_replay_tries := 0 } { event_idx := 5, num_replay_tries := 0 }
      0 "s1" "e1" (by decide) (by decide)).2.2 (by decide)⟩
